import Mathlib

/-!
Verification development for the weather_app command-line utility
(src/forecast.py).  The program resolves a city name to a location key via
a lookup endpoint and then prints the next-hour forecast for that key.

The embedding below models one invocation of `Forecast.get_forecast` as a
pure function from the city string and the two HTTP responses (lookup and
forecast) to the list of observable events (HTTP requests dispatched, log
lines emitted) together with the final outcome of the process (normal
return, `sys.exit()`, or an uncaught exception).
-/

set_option maxRecDepth 8192

namespace WeatherApp

/-- JSON values as produced by Python json parsing of an API response body.
A number is kept opaque as its rational value together with the exact text
Python str() prints for it (the program never does arithmetic on numbers,
it only prints the temperature). -/
inductive Json where
  | null
  | bool (b : Bool)
  | num (val : ℚ) (printed : String)
  | str (s : String)
  | arr (elems : List Json)
  | obj (fields : List (String × Json))

/-- Python truthiness of a parsed JSON value, used by the `if not r:` check
on the lookup body: empty containers, empty strings, zero, False and None
are falsy. -/
def Json.isTruthy : Json → Bool
  | .null => false
  | .bool b => b
  | .num v _ => decide (v ≠ 0)
  | .str s => !s.isEmpty
  | .arr xs => !xs.isEmpty
  | .obj fs => !fs.isEmpty

/-- Python repr() of a parsed JSON value (string quoting is modelled without
escape processing; parsed dicts have unique keys). -/
def Json.pyRepr : Json → String
  | .null => "None"
  | .bool b => if b then "True" else "False"
  | .num _ p => p
  | .str s => "\x27" ++ s ++ "\x27"
  | .arr xs => "[" ++ String.intercalate ", " (xs.attach.map fun x => pyRepr x.1) ++ "]"
  | .obj fs =>
      "\x7b" ++
        String.intercalate ", "
          (fs.attach.map fun f => "\x27" ++ f.1.1 ++ "\x27: " ++ pyRepr f.1.2) ++
      "\x7d"
decreasing_by
  · have h := List.sizeOf_lt_of_mem x.2
    simp only [Json.arr.sizeOf_spec]
    omega
  · obtain ⟨⟨a, b⟩, hm⟩ := f
    have h := List.sizeOf_lt_of_mem hm
    simp only [Prod.mk.sizeOf_spec] at h
    simp only [Json.obj.sizeOf_spec]
    omega

/-- Python str() of a parsed JSON value: a string prints as itself, every
other value prints as its repr (spelled out for the scalar constructors,
where str and repr print the same text). -/
def Json.pyStr : Json → String
  | .null => "None"
  | .bool b => if b then "True" else "False"
  | .num _ p => p
  | .str s => s
  | .arr xs => Json.pyRepr (.arr xs)
  | .obj fs => Json.pyRepr (.obj fs)

/-- Python subscripting `x[0]`, as used on the two parsed response bodies. -/
def jsonSubscript0 : Json → Except (String × String) Json
  | .arr [] => .error ("IndexError", "list index out of range")
  | .arr (x :: _) => .ok x
  | .obj _ => .error ("KeyError", "0")
  | .str s =>
      match s.data with
      | [] => .error ("IndexError", "string index out of range")
      | c :: _ => .ok (.str (String.mk [c]))
  | .num _ _ => .error ("TypeError", "float object is not subscriptable")
  | .bool _ => .error ("TypeError", "bool object is not subscriptable")
  | .null => .error ("TypeError", "NoneType object is not subscriptable")

/-- Python subscripting `x[k]` with a string key, as used for `["Key"]`,
`["DateTime"]`, `["Temperature"]` and `["Value"]`. -/
def jsonSubscriptKey (j : Json) (k : String) : Except (String × String) Json :=
  match j with
  | .obj fs =>
      match fs.lookup k with
      | some v => .ok v
      | none => .error ("KeyError", k)
  | .arr _ => .error ("TypeError", "list indices must be integers or slices, not str")
  | .str _ => .error ("TypeError", "string indices must be integers")
  | .num _ _ => .error ("TypeError", "float object is not subscriptable")
  | .bool _ => .error ("TypeError", "bool object is not subscriptable")
  | .null => .error ("TypeError", "NoneType object is not subscriptable")

/-- Python slicing `x[:10]`, as applied to the `DateTime` field. -/
def pySliceTo10 : Json → Except (String × String) Json
  | .str s => .ok (.str (String.mk (s.data.take 10)))
  | .arr xs => .ok (.arr (xs.take 10))
  | _ => .error ("TypeError", "unhashable type: slice")

/-- Python str.isalpha for the ASCII strings the program receives as city
names: nonempty and every character a letter (Char.isAlpha covers exactly
the ASCII letters). -/
def pyIsAlpha (s : String) : Bool := !s.isEmpty && s.data.all Char.isAlpha

/-- The fields of a requests.Response that the program observes:
status_code, reason and url (which appear in the raise_for_status message)
and the result of `.json()`, where `.error msg` models `.json()` raising a
JSONDecodeError whose displayed text is `msg`. -/
structure HttpResponse where
  status : Nat
  reason : String
  url : String
  body : Except String Json

/-- requests.Response.raise_for_status: raises HTTPError exactly for
status codes in [400, 500) ("Client Error") and [500, 600)
("Server Error"); any other status, 2xx or not, passes.  Returns the
message of the raised HTTPError, if any. -/
def raiseForStatus (r : HttpResponse) : Option String :=
  if 400 ≤ r.status ∧ r.status < 500 then
    some (toString r.status ++ " Client Error: " ++ r.reason ++ " for url: " ++ r.url)
  else if 500 ≤ r.status ∧ r.status < 600 then
    some (toString r.status ++ " Server Error: " ++ r.reason ++ " for url: " ++ r.url)
  else none

/-- Leap-year rule used by Python's datetime (proleptic Gregorian). -/
def isLeapYear (y : Nat) : Bool := y % 4 == 0 && (y % 100 != 0 || y % 400 == 0)

/-- Number of days in a month, as enforced by the datetime constructor. -/
def daysInMonth (y m : Nat) : Nat :=
  if m = 2 then (if isLeapYear y then 29 else 28)
  else if m = 4 ∨ m = 6 ∨ m = 9 ∨ m = 11 then 30
  else 31

/-- Numeric value of a digit character. -/
def charVal (c : Char) : Nat := c.toNat - 48

/-- The %Y directive of strptime: exactly four digit characters. -/
def parse4Y : List Char → Option (Nat × List Char)
  | a :: b :: c :: d :: rest =>
      if a.isDigit ∧ b.isDigit ∧ c.isDigit ∧ d.isDigit then
        some (charVal a * 1000 + charVal b * 100 + charVal c * 10 + charVal d, rest)
      else none
  | _ => none

/-- The %m and %d directives of strptime, whose regexes
(1[0-2]|0[1-9]|[1-9]) and (3[01]|[12]d|0[1-9]|[1-9]) consume two digits
when the two-digit value is in range 1..maxv and otherwise fall back to a
single nonzero digit. -/
def parse2or1 (maxv : Nat) : List Char → Option (Nat × List Char)
  | a :: b :: rest =>
      if a.isDigit ∧ b.isDigit ∧ 1 ≤ charVal a * 10 + charVal b ∧ charVal a * 10 + charVal b ≤ maxv then
        some (charVal a * 10 + charVal b, rest)
      else if a.isDigit ∧ 1 ≤ charVal a ∧ charVal a ≤ 9 then
        some (charVal a, b :: rest)
      else none
  | [a] =>
      if a.isDigit ∧ 1 ≤ charVal a ∧ charVal a ≤ 9 then some (charVal a, []) else none
  | [] => none

/-- The literal "-" of the format string: consumes one dash. -/
def expectDash : List Char → Option (List Char)
  | '-' :: rest => some rest
  | _ => none

/-- datetime.strptime(s, "%Y-%m-%d") on a character list: anchored match of
the three directives separated by literal dashes, the trailing-garbage
check ("unconverted data remains"), and the datetime constructor's
validity checks (MINYEAR = 1 and the day fitting the month).  Returns the
(year, month, day) of the resulting datetime, or none for a ValueError. -/
def strptimeYMDChars (cs : List Char) : Option (Nat × Nat × Nat) :=
  (parse4Y cs).bind fun yr =>
    (expectDash yr.2).bind fun r2 =>
      (parse2or1 12 r2).bind fun mr =>
        (expectDash mr.2).bind fun r4 =>
          (parse2or1 31 r4).bind fun dr =>
            if dr.2 = [] then
              if 1 ≤ yr.1 ∧ dr.1 ≤ daysInMonth yr.1 mr.1 then some (yr.1, mr.1, dr.1)
              else none
            else none

/-- datetime.strptime(s, "%Y-%m-%d") on a string. -/
def strptimeYMD (s : String) : Option (Nat × Nat × Nat) := strptimeYMDChars s.data

/-- Two-digit zero-padded field (%d and %m); the program only ever formats
day and month values below 100. -/
def pad2 (n : Nat) : List Char := [Nat.digitChar (n / 10 % 10), Nat.digitChar (n % 10)]

/-- Four-digit zero-padded field (%Y, per the documented datetime.strftime
format table); datetime years are always in [1, 9999]. -/
def pad4 (n : Nat) : List Char :=
  [Nat.digitChar (n / 1000 % 10), Nat.digitChar (n / 100 % 10),
   Nat.digitChar (n / 10 % 10), Nat.digitChar (n % 10)]

/-- datetime.strftime(dt, "%d.%m.%Y"). -/
def strftimeDMY (y m d : Nat) : String := String.mk (pad2 d ++ '.' :: pad2 m ++ '.' :: pad4 y)

/-- The canonical YYYY-MM-DD rendering of a calendar date (the input format
named by the spec). -/
def fmtYMD (y m d : Nat) : String := String.mk (pad4 y ++ '-' :: pad2 m ++ '-' :: pad2 d)

/-- Line 114 of forecast.py as a single date-reformatting function:
datetime.strftime(datetime.strptime(s, "%Y-%m-%d"), "%d.%m.%Y"), with none
modelling the ValueError strptime raises on invalid input. -/
def reformatDate (s : String) : Option String :=
  (strptimeYMD s).map fun t => strftimeDMY t.1 t.2.1 t.2.2

/-- Observable events of one program run: the two outbound HTTP requests
(carrying the data that varies: the q= city parameter, and the location
key appended to the forecast URL) and the log lines. -/
inductive Event where
  | lookupRequest (city : String)
  | forecastRequest (key : Json)
  | logError (line : String)
  | logInfo (line : String)

/-- How a modelled computation ends: a normal return, process termination
via sys.exit() carrying the process exit status (a bare sys.exit() raises
SystemExit(None), which terminates the process with status 0), or an
uncaught exception (exception type name and message), which the
interpreter turns into a traceback and exit status 1. -/
inductive Outcome (α : Type) where
  | ok (a : α)
  | exited (code : Nat)
  | uncaught (exc : String) (msg : String)

/-- The try-block of get_location_key (lines 85-91): the isalpha check,
raise_for_status, .json() and the emptiness check, in source order; an
error value is the (type name, args[0]) pair of the exception raised. -/
def tryLookup (city : String) (resp : HttpResponse) : Except (String × String) Json :=
  if pyIsAlpha city = true then
    match raiseForStatus resp with
    | some msg => .error ("HTTPError", msg)
    | none =>
      match resp.body with
      | .error msg => .error ("JSONDecodeError", msg)
      | .ok j =>
        if j.isTruthy = true then .ok j
        else .error ("EmptyDatabaseError", "There is no match in the database.")
  else .error ("InvalidCityNameError", "City name must be a string.")

/-- Forecast.get_location_key (lines 65-96): the lookup request is
dispatched first (line 82, before the try block), an exception inside the
try is logged as "name: message" followed by sys.exit(), and the
`r[0]["Key"]` extraction on line 95 happens outside the try, so an
exception there propagates uncaught. -/
def get_location_key (city : String) (resp : HttpResponse) : List Event × Outcome Json :=
  match tryLookup city resp with
  | .error (n, m) =>
      ([.lookupRequest city, .logError (n ++ ": " ++ m)], .exited 0)
  | .ok j =>
      match jsonSubscript0 j with
      | .error (n, m) => ([.lookupRequest city], .uncaught n m)
      | .ok first =>
        match jsonSubscriptKey first "Key" with
        | .error (n, m) => ([.lookupRequest city], .uncaught n m)
        | .ok key => ([.lookupRequest city], .ok key)

/-- Lines 112-113 of get_forecast: `r[0]["DateTime"][:10]` followed by
`r[0]["Temperature"]["Value"]`, in evaluation order; all of it runs
outside any try block. -/
def extractForecastFields (j : Json) : Except (String × String) (Json × Json) :=
  match jsonSubscript0 j with
  | .error e => .error e
  | .ok first =>
    match jsonSubscriptKey first "DateTime" with
    | .error e => .error e
    | .ok dtv =>
      match pySliceTo10 dtv with
      | .error e => .error e
      | .ok dateRaw =>
        match jsonSubscriptKey first "Temperature" with
        | .error e => .error e
        | .ok tempObj =>
          match jsonSubscriptKey tempObj "Value" with
          | .error e => .error e
          | .ok temp => .ok (dateRaw, temp)

/-- datetime.strptime(date, "%Y-%m-%d") on the sliced DateTime value
(line 114): a TypeError if the value is not a string, a ValueError if it
does not parse as a valid date. -/
def strptimePy (dateRaw : Json) : Except (String × String) (Nat × Nat × Nat) :=
  match dateRaw with
  | .str ds =>
      match strptimeYMD ds with
      | some t => .ok t
      | none => .error ("ValueError", "time data " ++ ds ++ " does not match format %Y-%m-%d")
  | _ => .error ("TypeError", "strptime argument 1 must be str")

/-- The degree sign constant of the Forecast class. -/
def DEGREE_SIGN : String := "°"

/-- Forecast.get_forecast (lines 98-115): obtains the location key (which
may already terminate the process), dispatches the forecast request, runs
raise_for_status inside a try (logging and sys.exit() on error), and then
parses the body, extracts the fields, reformats the date and logs the one
informational line - all outside any try, so any exception there
propagates uncaught. -/
def get_forecast (city : String) (lr fr : HttpResponse) : List Event × Outcome Unit :=
  match get_location_key city lr with
  | (ev, .exited c) => (ev, .exited c)
  | (ev, .uncaught n m) => (ev, .uncaught n m)
  | (ev, .ok key) =>
    match raiseForStatus fr with
    | some msg =>
        (ev ++ [Event.forecastRequest key] ++ [Event.logError ("HTTPError: " ++ msg)],
         .exited 0)
    | none =>
      match fr.body with
      | .error msg => (ev ++ [Event.forecastRequest key], .uncaught "JSONDecodeError" msg)
      | .ok j =>
        match extractForecastFields j with
        | .error (n, m) => (ev ++ [Event.forecastRequest key], .uncaught n m)
        | .ok (dateRaw, temp) =>
          match strptimePy dateRaw with
          | .error (n, m) => (ev ++ [Event.forecastRequest key], .uncaught n m)
          | .ok (yy, mm, dd) =>
            (ev ++ [Event.forecastRequest key] ++ [Event.logInfo ("Date: " ++
               strftimeDMY yy mm dd ++ ", Temperature: " ++ temp.pyStr ++
               DEGREE_SIGN ++ "C")], .ok ())

/-- The lookup endpoint URL constant of the Forecast class. -/
def CITY_SEARCH_URL : String := "http://dataservice.accuweather.com/locations/v1/cities/search/"

/-- The forecast endpoint URL constant of the Forecast class. -/
def FORECAST_URL : String := "http://dataservice.accuweather.com/forecasts/v1/hourly/1hour/"

/-- A lookup body with one match, as in the spec example: [ \x7b"Key": "12345"\x7d ]. -/
def lookupOkBody : Json := .arr [.obj [("Key", .str "12345")]]

/-- A forecast body with one entry, as in the spec example. -/
def forecastOkBody : Json :=
  .arr [.obj [("DateTime", .str "2023-06-15T14:00:00+01:00"),
              ("Temperature", .obj [("Value", .num (43 / 2 : ℚ) "21.5")])]]

/-- A successful lookup response. -/
def lookupOk : HttpResponse := ⟨200, "OK", CITY_SEARCH_URL, .ok lookupOkBody⟩

/-- A 404 lookup response. -/
def lookup404 : HttpResponse := ⟨404, "Not Found", CITY_SEARCH_URL, .ok (.arr [])⟩

/-- A 304 lookup response: non-2xx, yet raise_for_status does not raise. -/
def lookup304 : HttpResponse := ⟨304, "Not Modified", CITY_SEARCH_URL, .ok lookupOkBody⟩

/-- A successful forecast response. -/
def forecastOk : HttpResponse := ⟨200, "OK", FORECAST_URL, .ok forecastOkBody⟩

/-- A 304 forecast response: non-2xx, yet raise_for_status does not raise. -/
def forecast304 : HttpResponse := ⟨304, "Not Modified", FORECAST_URL, .ok forecastOkBody⟩

/-- A forecast response whose body is not valid JSON, so .json() raises. -/
def forecastBadJson : HttpResponse :=
  ⟨200, "OK", FORECAST_URL, .error "Expecting value: line 1 column 1 (char 0)"⟩

/-- A successful lookup response whose body is the empty JSON array. -/
def lookupEmpty : HttpResponse := ⟨200, "OK", CITY_SEARCH_URL, .ok (.arr [])⟩

/-- A lookup response whose body is not valid JSON, so .json() raises. -/
def lookupBadJson : HttpResponse :=
  ⟨200, "OK", CITY_SEARCH_URL, .error "Expecting value: line 1 column 1 (char 0)"⟩

/-! Helper lemmas shared by the claim theorems. -/

lemma string_data_mk (l : List Char) : (String.mk l).data = l := rfl

lemma raiseForStatus_none_of_lt {r : HttpResponse} (h : r.status < 400) :
    raiseForStatus r = none := by
  unfold raiseForStatus
  rw [if_neg (by omega), if_neg (by omega)]

lemma raiseForStatus_some {r : HttpResponse} (h4 : 400 ≤ r.status) (h6 : r.status < 600) :
    ∃ msg, raiseForStatus r = some msg := by
  unfold raiseForStatus
  by_cases h : r.status < 500
  · exact ⟨_, if_pos ⟨h4, h⟩⟩
  · rw [if_neg (by omega), if_pos ⟨by omega, h6⟩]
    exact ⟨_, rfl⟩

lemma get_location_key_invalid {city : String} (resp : HttpResponse)
    (h : pyIsAlpha city = false) :
    get_location_key city resp =
      ([Event.lookupRequest city,
        Event.logError "InvalidCityNameError: City name must be a string."],
       Outcome.exited 0) := by
  unfold get_location_key tryLookup
  rw [h]
  rfl

lemma get_location_key_ok {city : String} {resp : HttpResponse}
    {fs : List (String × Json)} {rest : List Json} {key : Json}
    (ha : pyIsAlpha city = true) (hs : raiseForStatus resp = none)
    (hb : resp.body = .ok (.arr (.obj fs :: rest)))
    (hk : fs.lookup "Key" = some key) :
    get_location_key city resp = ([Event.lookupRequest city], Outcome.ok key) := by
  unfold get_location_key tryLookup
  rw [ha, hs, hb]
  simp [Json.isTruthy, jsonSubscript0, jsonSubscriptKey, hk]

lemma get_location_key_exit_zero (city : String) (resp : HttpResponse) (c : Nat) :
    (get_location_key city resp).2 = Outcome.exited c → c = 0 := by
  unfold get_location_key
  split
  · intro h
    simp at h
    omega
  · split
    · intro h
      simp at h
    · split
      · intro h
        simp at h
      · intro h
        simp at h

lemma digitChar_isDigit {k : Nat} (h : k < 10) : (Nat.digitChar k).isDigit = true := by
  interval_cases k <;> decide

lemma charVal_digitChar {k : Nat} (h : k < 10) : charVal (Nat.digitChar k) = k := by
  interval_cases k <;> decide

lemma parse4Y_pad4 (y : Nat) (hy : y ≤ 9999) (rest : List Char) :
    parse4Y (pad4 y ++ rest) = some (y, rest) := by
  have h0 : y / 1000 % 10 < 10 := Nat.mod_lt _ (by norm_num)
  have h1 : y / 100 % 10 < 10 := Nat.mod_lt _ (by norm_num)
  have h2 : y / 10 % 10 < 10 := Nat.mod_lt _ (by norm_num)
  have h3 : y % 10 < 10 := Nat.mod_lt _ (by norm_num)
  simp only [pad4, List.cons_append, List.nil_append, parse4Y]
  rw [if_pos ⟨digitChar_isDigit h0, digitChar_isDigit h1, digitChar_isDigit h2,
        digitChar_isDigit h3⟩]
  rw [charVal_digitChar h0, charVal_digitChar h1, charVal_digitChar h2, charVal_digitChar h3]
  have hv : y / 1000 % 10 * 1000 + y / 100 % 10 * 100 + y / 10 % 10 * 10 + y % 10 = y := by
    omega
  rw [hv]

lemma parse2or1_pad2 (maxv n : Nat) (h1 : 1 ≤ n) (h2 : n ≤ maxv) (h3 : maxv ≤ 99)
    (rest : List Char) :
    parse2or1 maxv (pad2 n ++ rest) = some (n, rest) := by
  have ha : n / 10 % 10 < 10 := Nat.mod_lt _ (by norm_num)
  have hb : n % 10 < 10 := Nat.mod_lt _ (by norm_num)
  have hv : n / 10 % 10 * 10 + n % 10 = n := by omega
  simp only [pad2, List.cons_append, List.nil_append, parse2or1]
  rw [if_pos]
  · rw [charVal_digitChar ha, charVal_digitChar hb, hv]
  · refine ⟨digitChar_isDigit ha, digitChar_isDigit hb, ?_, ?_⟩
    · rw [charVal_digitChar ha, charVal_digitChar hb, hv]
      omega
    · rw [charVal_digitChar ha, charVal_digitChar hb, hv]
      omega

lemma parse2or1_pad2_nil (maxv n : Nat) (h1 : 1 ≤ n) (h2 : n ≤ maxv) (h3 : maxv ≤ 99) :
    parse2or1 maxv (pad2 n) = some (n, []) := by
  have h := parse2or1_pad2 maxv n h1 h2 h3 []
  simpa using h

lemma daysInMonth_le (y m : Nat) : daysInMonth y m ≤ 31 := by
  unfold daysInMonth
  split
  · split <;> omega
  · split <;> omega

lemma strptimeYMD_fmtYMD (y m d : Nat) (hy1 : 1 ≤ y) (hy2 : y ≤ 9999)
    (hm1 : 1 ≤ m) (hm2 : m ≤ 12) (hd1 : 1 ≤ d) (hd2 : d ≤ daysInMonth y m) :
    strptimeYMD (fmtYMD y m d) = some (y, m, d) := by
  have hd31 : d ≤ 31 := le_trans hd2 (daysInMonth_le y m)
  unfold strptimeYMD
  rw [show (fmtYMD y m d).data = pad4 y ++ '-' :: (pad2 m ++ '-' :: pad2 d) from rfl]
  unfold strptimeYMDChars
  rw [parse4Y_pad4 y hy2]
  simp only [Option.bind, expectDash]
  rw [parse2or1_pad2 12 m hm1 hm2 (by omega)]
  simp only [Option.bind, expectDash]
  rw [parse2or1_pad2_nil 31 d hd1 hd31 (by omega)]
  simp only [Option.bind]
  simp [hy1, hd2]

/-! Claim theorems. -/

/-- C1 counterexample: a non-2xx status is not always treated as an error.
With status 304 on both endpoints raise_for_status does not raise, the run
completes normally and emits the forecast line, contradicting the claim
that every non-2xx status logs a TransportError line and suppresses the
forecast output; and on a 404 the single logged error line starts with the
exception class name HTTPError, not with TransportError. -/
theorem non2xx_not_always_transport_error :
    get_forecast "London" lookup304 forecast304 =
      ([Event.lookupRequest "London", Event.forecastRequest (Json.str "12345"),
        Event.logInfo "Date: 15.06.2023, Temperature: 21.5°C"], Outcome.ok ()) ∧
    get_forecast "London" lookup404 forecastOk =
      ([Event.lookupRequest "London",
        Event.logError
          "HTTPError: 404 Client Error: Not Found for url: http://dataservice.accuweather.com/locations/v1/cities/search/"],
       Outcome.exited 0) ∧
    (String.data
        "HTTPError: 404 Client Error: Not Found for url: http://dataservice.accuweather.com/locations/v1/cities/search/").take
        14 ≠
      String.data "TransportError" :=
  ⟨rfl, rfl, by decide⟩

/-- C1 (amended): for every HTTP response with status in [400, 600) from
either endpoint (given the run reaches that endpoint's status check: a
valid city name for the lookup, and a successful lookup for the forecast),
the program logs exactly one error line "HTTPError: <message>" and
terminates via sys.exit() without emitting any forecast output line. -/
theorem http_error_logged_and_exits :
    (∀ (city : String) (lr fr : HttpResponse), pyIsAlpha city = true →
      400 ≤ lr.status → lr.status < 600 →
      ∃ msg, get_forecast city lr fr =
        ([Event.lookupRequest city, Event.logError ("HTTPError: " ++ msg)],
         Outcome.exited 0)) ∧
    (∀ (city : String) (lr fr : HttpResponse) (fs : List (String × Json))
       (rest : List Json) (key : Json), pyIsAlpha city = true →
      200 ≤ lr.status → lr.status < 300 →
      lr.body = Except.ok (Json.arr (Json.obj fs :: rest)) →
      fs.lookup "Key" = some key →
      400 ≤ fr.status → fr.status < 600 →
      ∃ msg, get_forecast city lr fr =
        ([Event.lookupRequest city, Event.forecastRequest key,
          Event.logError ("HTTPError: " ++ msg)], Outcome.exited 0)) := by
  constructor
  · intro city lr fr ha h4 h6
    obtain ⟨msg, hmsg⟩ := raiseForStatus_some h4 h6
    refine ⟨msg, ?_⟩
    unfold get_forecast get_location_key tryLookup
    rw [ha, hmsg]
    rfl
  · intro city lr fr fs rest key ha h1 h2 hb hk h4 h6
    obtain ⟨msg, hmsg⟩ := raiseForStatus_some h4 h6
    refine ⟨msg, ?_⟩
    have hres := get_location_key_ok ha (raiseForStatus_none_of_lt (by omega)) hb hk
    unfold get_forecast
    rw [hres, hmsg]
    rfl

/-- C1 witness: the amended claim at a concrete 404 lookup response. -/
theorem http_error_logged_and_exits_witness :
    pyIsAlpha "London" = true ∧ 400 ≤ lookup404.status ∧ lookup404.status < 600 ∧
    (∃ msg, get_forecast "London" lookup404 forecastOk =
      ([Event.lookupRequest "London", Event.logError ("HTTPError: " ++ msg)],
       Outcome.exited 0)) :=
  ⟨rfl, by decide, by decide,
   http_error_logged_and_exits.1 "London" lookup404 forecastOk rfl (by decide) (by decide)⟩

/-- C2: the lookup HTTP GET is dispatched before the alphabetic-only
validity check is evaluated: in every run the first observable event is
the lookup request, and even when the city name is invalid the trace
still begins with the dispatched request, followed only by the error log. -/
theorem lookup_dispatched_before_validity_check :
    (∀ (city : String) (resp : HttpResponse),
      ((get_location_key city resp).1).head? = some (Event.lookupRequest city)) ∧
    (∀ (city : String) (resp : HttpResponse), pyIsAlpha city = false →
      get_location_key city resp =
        ([Event.lookupRequest city,
          Event.logError "InvalidCityNameError: City name must be a string."],
         Outcome.exited 0)) := by
  constructor
  · intro city resp
    unfold get_location_key
    split
    · rfl
    · split
      · rfl
      · split
        · rfl
        · rfl
  · intro city resp h
    exact get_location_key_invalid resp h

/-- C2 witness: the invalid city name "New York1" still dispatches the
lookup request as its first event. -/
theorem lookup_dispatched_before_validity_check_witness :
    pyIsAlpha "New York1" = false ∧
    get_location_key "New York1" lookupOk =
      ([Event.lookupRequest "New York1",
        Event.logError "InvalidCityNameError: City name must be a string."],
       Outcome.exited 0) :=
  ⟨rfl, lookup_dispatched_before_validity_check.2 "New York1" lookupOk rfl⟩

/-- C3: every (ASCII) city string containing at least one non-alphabetic
character fails with the InvalidCityName error kind: the run logs the
InvalidCityNameError line and terminates via sys.exit() instead of
returning a location key. -/
theorem invalid_city_fails_invalid_city_name :
    ∀ (city : String) (resp : HttpResponse),
    (∀ c ∈ city.data, c.toNat < 128) →
    (∃ c ∈ city.data, ¬ c.isAlpha) →
    get_location_key city resp =
      ([Event.lookupRequest city,
        Event.logError "InvalidCityNameError: City name must be a string."],
       Outcome.exited 0) := by
  intro city resp _hascii hbad
  apply get_location_key_invalid
  rcases hbad with ⟨c, hc, hna⟩
  have hall : city.data.all Char.isAlpha = false := by
    rw [List.all_eq_false]
    exact ⟨c, hc, by simpa using hna⟩
  simp [pyIsAlpha, hall]

/-- C3 witness: "London1" contains the digit 1 and is rejected. -/
theorem invalid_city_fails_invalid_city_name_witness :
    (∀ c ∈ String.data "London1", c.toNat < 128) ∧
    (∃ c ∈ String.data "London1", ¬ c.isAlpha) ∧
    get_location_key "London1" lookupOk =
      ([Event.lookupRequest "London1",
        Event.logError "InvalidCityNameError: City name must be a string."],
       Outcome.exited 0) :=
  ⟨by decide, by decide,
   invalid_city_fails_invalid_city_name "London1" lookupOk (by decide) (by decide)⟩

/-- C4: a lookup call with a success (2xx) status whose parsed JSON body
is the empty sequence fails with the EmptyDatabase error kind: the run
logs the EmptyDatabaseError line and terminates via sys.exit() instead of
returning a location key. -/
theorem empty_lookup_body_fails_empty_database :
    ∀ (city : String) (resp : HttpResponse), pyIsAlpha city = true →
    200 ≤ resp.status → resp.status < 300 →
    resp.body = Except.ok (Json.arr []) →
    get_location_key city resp =
      ([Event.lookupRequest city,
        Event.logError "EmptyDatabaseError: There is no match in the database."],
       Outcome.exited 0) := by
  intro city resp ha h1 h2 hb
  have hrs : raiseForStatus resp = none := raiseForStatus_none_of_lt (by omega)
  unfold get_location_key tryLookup
  rw [ha, hrs, hb]
  rfl

/-- C4 witness: the empty-array lookup body at status 200. -/
theorem empty_lookup_body_fails_empty_database_witness :
    pyIsAlpha "London" = true ∧ 200 ≤ lookupEmpty.status ∧ lookupEmpty.status < 300 ∧
    lookupEmpty.body = Except.ok (Json.arr []) ∧
    get_location_key "London" lookupEmpty =
      ([Event.lookupRequest "London",
        Event.logError "EmptyDatabaseError: There is no match in the database."],
       Outcome.exited 0) :=
  ⟨rfl, by decide, by decide, rfl,
   empty_lookup_body_fails_empty_database "London" lookupEmpty rfl (by decide) (by decide) rfl⟩

/-- C5: for an alphabetic city and a successful lookup response whose
parsed body is a non-empty sequence whose first element carries a "Key"
field, get_location_key returns that first element's "Key" field, with no
log output. -/
theorem lookup_returns_first_key :
    ∀ (city : String) (resp : HttpResponse) (fs : List (String × Json))
      (rest : List Json) (key : Json), pyIsAlpha city = true →
    200 ≤ resp.status → resp.status < 300 →
    resp.body = Except.ok (Json.arr (Json.obj fs :: rest)) →
    fs.lookup "Key" = some key →
    get_location_key city resp = ([Event.lookupRequest city], Outcome.ok key) := by
  intro city resp fs rest key ha h1 h2 hb hk
  exact get_location_key_ok ha (raiseForStatus_none_of_lt (by omega)) hb hk

/-- C5 witness: the spec example, lookup body [ \x7b"Key": "12345"\x7d ] for
city "London" returns "12345". -/
theorem lookup_returns_first_key_witness :
    pyIsAlpha "London" = true ∧
    lookupOk.body = Except.ok (Json.arr (Json.obj [("Key", Json.str "12345")] :: [])) ∧
    List.lookup "Key" [("Key", Json.str "12345")] = some (Json.str "12345") ∧
    get_location_key "London" lookupOk =
      ([Event.lookupRequest "London"], Outcome.ok (Json.str "12345")) :=
  ⟨rfl, rfl, rfl,
   lookup_returns_first_key "London" lookupOk [("Key", Json.str "12345")] [] (Json.str "12345")
     rfl (by decide) (by decide) rfl rfl⟩

/-- C6: on a fully successful run, get_forecast takes the first 10
characters of the first forecast entry's DateTime string, parses them as a
YYYY-MM-DD date, reads Temperature.Value, and emits exactly one
informational line "Date: <DD.MM.YYYY>, Temperature: <value>°C" after the
two requests. -/
theorem forecast_success_emits_one_line :
    ∀ (city : String) (lr fr : HttpResponse) (fs : List (String × Json))
      (rest : List Json) (key : Json) (gs : List (String × Json)) (rest2 : List Json)
      (dt : String) (tj : List (String × Json)) (q : ℚ) (p : String) (yy mm dd : Nat),
    pyIsAlpha city = true → 200 ≤ lr.status → lr.status < 300 →
    lr.body = Except.ok (Json.arr (Json.obj fs :: rest)) →
    fs.lookup "Key" = some key →
    200 ≤ fr.status → fr.status < 300 →
    fr.body = Except.ok (Json.arr (Json.obj gs :: rest2)) →
    gs.lookup "DateTime" = some (Json.str dt) →
    gs.lookup "Temperature" = some (Json.obj tj) →
    tj.lookup "Value" = some (Json.num q p) →
    strptimeYMD (String.mk (dt.data.take 10)) = some (yy, mm, dd) →
    get_forecast city lr fr =
      ([Event.lookupRequest city, Event.forecastRequest key,
        Event.logInfo ("Date: " ++ strftimeDMY yy mm dd ++ ", Temperature: " ++ p ++
          DEGREE_SIGN ++ "C")], Outcome.ok ()) := by
  intro city lr fr fs rest key gs rest2 dt tj q p yy mm dd ha hl1 hl2 hb hk hf1 hf2 hbf
    hdt htj hv hymd
  have hres := get_location_key_ok ha (raiseForStatus_none_of_lt (by omega)) hb hk
  have hfs : raiseForStatus fr = none := raiseForStatus_none_of_lt (by omega)
  have hext : extractForecastFields (Json.arr (Json.obj gs :: rest2)) =
      Except.ok (Json.str (String.mk (dt.data.take 10)), Json.num q p) := by
    simp [extractForecastFields, jsonSubscript0, jsonSubscriptKey, pySliceTo10, hdt, htj, hv]
  have hstr : strptimePy (Json.str (String.mk (dt.data.take 10))) = Except.ok (yy, mm, dd) := by
    simp [strptimePy, hymd]
  unfold get_forecast
  simp only [hres, hfs, hbf, hext, hstr]
  rfl

/-- C6 witness: the spec example forecast entry emits
"Date: 15.06.2023, Temperature: 21.5°C". -/
theorem forecast_success_emits_one_line_witness :
    forecastOk.body =
      Except.ok (Json.arr (Json.obj [("DateTime", Json.str "2023-06-15T14:00:00+01:00"),
        ("Temperature", Json.obj [("Value", Json.num (43 / 2 : ℚ) "21.5")])] :: [])) ∧
    strptimeYMD (String.mk ((String.data "2023-06-15T14:00:00+01:00").take 10)) =
      some (2023, 6, 15) ∧
    get_forecast "London" lookupOk forecastOk =
      ([Event.lookupRequest "London", Event.forecastRequest (Json.str "12345"),
        Event.logInfo "Date: 15.06.2023, Temperature: 21.5°C"], Outcome.ok ()) :=
  ⟨rfl, rfl,
   forecast_success_emits_one_line "London" lookupOk forecastOk
     [("Key", Json.str "12345")] [] (Json.str "12345")
     [("DateTime", Json.str "2023-06-15T14:00:00+01:00"),
      ("Temperature", Json.obj [("Value", Json.num (43 / 2 : ℚ) "21.5")])] []
     "2023-06-15T14:00:00+01:00" [("Value", Json.num (43 / 2 : ℚ) "21.5")]
     (43 / 2 : ℚ) "21.5" 2023 6 15
     rfl (by decide) (by decide) rfl rfl (by decide) (by decide) rfl rfl rfl rfl rfl⟩

/-- C7: date reformatting is a faithful round-trip on every valid
calendar date: for each valid date rendered in canonical YYYY-MM-DD form,
strptime followed by strftime yields exactly the DD.MM.YYYY rearrangement
of the same digits. -/
theorem date_reformat_roundtrip :
    ∀ y m d : Nat, 1 ≤ y → y ≤ 9999 → 1 ≤ m → m ≤ 12 → 1 ≤ d → d ≤ daysInMonth y m →
    reformatDate (fmtYMD y m d) = some (strftimeDMY y m d) := by
  intro y m d hy1 hy2 hm1 hm2 hd1 hd2
  unfold reformatDate
  rw [strptimeYMD_fmtYMD y m d hy1 hy2 hm1 hm2 hd1 hd2]
  rfl

/-- C7 witness: the leap day 2024-02-29 maps to 29.02.2024. -/
theorem date_reformat_roundtrip_witness :
    1 ≤ 29 ∧ 29 ≤ daysInMonth 2024 2 ∧
    fmtYMD 2024 2 29 = "2024-02-29" ∧ strftimeDMY 2024 2 29 = "29.02.2024" ∧
    reformatDate (fmtYMD 2024 2 29) = some (strftimeDMY 2024 2 29) :=
  ⟨by decide, by decide, by decide, by decide,
   date_reformat_roundtrip 2024 2 29 (by decide) (by decide) (by decide) (by decide)
     (by decide) (by decide)⟩

/-- C8 counterexample: a validation failure terminates with exit status 0,
not a non-zero status: the bare sys.exit() on line 94 raises
SystemExit(None), which the interpreter treats as successful termination. -/
theorem failure_exit_status_is_zero :
    get_forecast "London1" lookupOk forecastOk =
      ([Event.lookupRequest "London1",
        Event.logError "InvalidCityNameError: City name must be a string."],
       Outcome.exited 0) := rfl

/-- C8 (amended): every validation or transport failure terminates
immediately via the bare sys.exit(), whose process exit status is 0 - the
same successful status as normal completion: whenever a run of
get_forecast ends in the sys.exit() path, the exit status is 0. -/
theorem sys_exit_code_is_zero :
    ∀ (city : String) (lr fr : HttpResponse) (c : Nat),
    (get_forecast city lr fr).2 = Outcome.exited c → c = 0 := by
  intro city lr fr c
  unfold get_forecast
  split
  · rename_i ev c2 heq
    intro h
    have h0 : c2 = 0 := get_location_key_exit_zero city lr c2 (by rw [heq])
    simp at h
    omega
  · intro h
    simp at h
  · split
    · intro h
      simp at h
      omega
    · split
      · intro h
        simp at h
      · split
        · intro h
          simp at h
        · split
          · intro h
            simp at h
          · intro h
            simp at h

/-- C8 witness: a concrete failing run exits via sys.exit() with status 0. -/
theorem sys_exit_code_is_zero_witness :
    (get_forecast "Lon don" lookupOk forecastOk).2 = Outcome.exited 0 ∧ (0 : Nat) = 0 :=
  ⟨rfl, sys_exit_code_is_zero "Lon don" lookupOk forecastOk 0 rfl⟩

/-- C9 counterexample: malformed JSON in the forecast response is not
caught: the run ends with an uncaught JSONDecodeError and no error line is
logged, contradicting the claim that every error is caught, logged and
followed by clean termination. -/
theorem forecast_bad_json_uncaught :
    get_forecast "London" lookupOk forecastBadJson =
      ([Event.lookupRequest "London", Event.forecastRequest (Json.str "12345")],
       Outcome.uncaught "JSONDecodeError" "Expecting value: line 1 column 1 (char 0)") := rfl

/-- C9 (amended): errors raised inside the two try blocks are caught,
logged once and terminate the process (shown here for malformed JSON in
the lookup response, whose .json() call is inside the try), but the
forecast body parsing happens outside any try block, so malformed JSON
there escapes as an uncaught exception with no log line. -/
theorem error_catching_boundary :
    (∀ (city : String) (resp : HttpResponse) (msg : String), pyIsAlpha city = true →
      resp.status < 400 → resp.body = Except.error msg →
      get_location_key city resp =
        ([Event.lookupRequest city, Event.logError ("JSONDecodeError: " ++ msg)],
         Outcome.exited 0)) ∧
    (∀ (city : String) (lr fr : HttpResponse) (fs : List (String × Json))
       (rest : List Json) (key : Json) (msg : String), pyIsAlpha city = true →
      lr.status < 400 → lr.body = Except.ok (Json.arr (Json.obj fs :: rest)) →
      fs.lookup "Key" = some key →
      fr.status < 400 → fr.body = Except.error msg →
      get_forecast city lr fr =
        ([Event.lookupRequest city, Event.forecastRequest key],
         Outcome.uncaught "JSONDecodeError" msg)) := by
  constructor
  · intro city resp msg ha hs hb
    have hrs := raiseForStatus_none_of_lt hs
    unfold get_location_key tryLookup
    rw [ha, hrs, hb]
    rfl
  · intro city lr fr fs rest key msg ha hl hb hk hf hbf
    have hres := get_location_key_ok ha (raiseForStatus_none_of_lt hl) hb hk
    have hfs := raiseForStatus_none_of_lt hf
    unfold get_forecast
    simp only [hres, hfs, hbf]
    rfl

/-- C9 witness: malformed JSON in the lookup response is caught and
logged. -/
theorem error_catching_boundary_witness :
    pyIsAlpha "London" = true ∧ lookupBadJson.status < 400 ∧
    lookupBadJson.body = Except.error "Expecting value: line 1 column 1 (char 0)" ∧
    get_location_key "London" lookupBadJson =
      ([Event.lookupRequest "London",
        Event.logError "JSONDecodeError: Expecting value: line 1 column 1 (char 0)"],
       Outcome.exited 0) :=
  ⟨rfl, by decide, rfl,
   error_catching_boundary.1 "London" lookupBadJson
     "Expecting value: line 1 column 1 (char 0)" rfl (by decide) rfl⟩

/-- C10: the empty city string contains no non-alphabetic character, yet
the isalpha check rejects it (Python isalpha is false on the empty
string), so every run with city "" fails with InvalidCityName and never
reaches the lookup-response parsing, whatever the response contains. -/
theorem empty_city_fails_invalid_city_name :
    ∀ resp : HttpResponse,
    get_location_key "" resp =
      ([Event.lookupRequest "",
        Event.logError "InvalidCityNameError: City name must be a string."],
       Outcome.exited 0) :=
  fun resp => get_location_key_invalid resp rfl

end WeatherApp
